import Mathlib

set_option linter.unusedVariables false

/-! Shallow embedding of the Virtual-Fitting-Room orchestration code:
`src/services/geminiService.ts` (Asset Encoder, Safety Gate, the four
generation-backend adapters) and `src/App.tsx` (the workflow controller).
The generative-AI backend is opaque: every service takes the outcome of its
backend call (`Except String r`, an error modelling a rejected promise) as an
explicit argument, and `JSON.parse` is passed in as a function argument that
may fail, exactly as the runtime one may throw. -/

deriving instance DecidableEq for Except

/-- Models the JavaScript expression `s || d` for strings: the empty string is
falsy and is replaced by the default `d`. -/
def jsOr (s d : String) : String := if s = "" then d else s

/-- Models JavaScript truthiness of an optional string field: `undefined` and
the empty string are both falsy. -/
def jsTruthyOpt (o : Option String) : Option String :=
  match o with
  | some s => if s = "" then none else some s
  | none => none

/-- Character class of the JavaScript regex dot, which matches every character
except the four line terminators. -/
def jsDotChar (c : Char) : Bool :=
  c != '\n' && c != '\r' && c != '\u2028' && c != '\u2029'

/-- Drops `p` from the front of `s`, or fails when `s` does not start with `p`. -/
def stripPrefixCL : List Char → List Char → Option (List Char)
  | [], s => some s
  | _ :: _, [] => none
  | p :: ps, c :: cs => if p = c then stripPrefixCL ps cs else none

/-- Literal `;base64,` separator of the data-URL regex in `parseBase64`
(src/services/geminiService.ts line 6). -/
def semiBase64 : List Char := ";base64,".data

/-- Matches the tail `;base64,<payload>` of the data-URL regex: the payload is
the final nonempty run of dot characters, anchored at the end of the input. -/
def matchTail (t : List Char) : Option (List Char) :=
  match stripPrefixCL semiBase64 t with
  | some p => if !p.isEmpty && p.all jsDotChar then some p else none
  | none => none

/-- Backtracking search of the regex `^data:(.+);base64,(.+)$` after the
`data:` scheme: the greedy first group takes the longest prefix of dot
characters that still leaves a `;base64,<payload>` tail.  `m` is the part of
the first group matched so far. -/
def greedySplit : List Char → List Char → Option (List Char × List Char)
  | _, [] => none
  | m, c :: cs =>
    if jsDotChar c then
      match greedySplit (m ++ [c]) cs with
      | some r => some r
      | none => if !m.isEmpty then (matchTail (c :: cs)).map (fun p => (m, p)) else none
    else
      if !m.isEmpty then (matchTail (c :: cs)).map (fun p => (m, p)) else none

/-- Pair extracted from a data URL by the Asset Encoder: MIME type plus the
base64 payload. -/
structure MimeData where
  mimeType : String
  data : String
deriving DecidableEq, Repr

/-- Embeds `parseBase64` (src/services/geminiService.ts lines 5-11): matches
the input against `^data:(.+);base64,(.+)$` and throws
`Invalid base64 string provided.` when there is no match. -/
def parseBase64 (dataUrl : String) : Except String MimeData :=
  match stripPrefixCL "data:".data dataUrl.data with
  | none => Except.error "Invalid base64 string provided."
  | some rest =>
    match greedySplit [] rest with
    | some (m, p) => Except.ok { mimeType := String.mk m, data := String.mk p }
    | none => Except.error "Invalid base64 string provided."

/-- Declarative shape test written from the spec sentence: the input is
`data:<mime>;base64,<payload>` with nonempty mime and payload and no line
terminators anywhere (the only shape the regex can match).  It checks every
split point, independent of the greedy strategy the regex engine uses. -/
def hasDataUrlShape (s : String) : Bool :=
  match stripPrefixCL "data:".data s.data with
  | none => false
  | some rest =>
    (List.range rest.length).any (fun i =>
      !(rest.take i).isEmpty && (rest.take i).all jsDotChar &&
        (matchTail (rest.drop i)).isSome)

example : parseBase64 "data:a;base64,b" = Except.ok { mimeType := "a", data := "b" } := by decide
example : parseBase64 "data:image/png;base64,AAA" =
    Except.ok { mimeType := "image/png", data := "AAA" } := by decide
example : parseBase64 "hello" = Except.error "Invalid base64 string provided." := by decide
example : parseBase64 "data:a;base64," = Except.error "Invalid base64 string provided." := by decide
example : parseBase64 "a;base64,b" = Except.error "Invalid base64 string provided." := by decide
example : parseBase64 "data:a;base64,b;base64,c" =
    Except.ok { mimeType := "a;base64,b", data := "c" } := by decide
example : hasDataUrlShape "data:a;base64,b" = true := by decide
example : hasDataUrlShape "hello" = false := by decide

/-- Length accounting for `stripPrefixCL`. -/
theorem stripPrefixCL_length : ∀ (p s r : List Char), stripPrefixCL p s = some r →
    r.length + p.length = s.length := by
  intro p
  induction p with
  | nil =>
    intro s r h
    simp only [stripPrefixCL, Option.some.injEq] at h
    subst h; simp
  | cons a as ih =>
    intro s r h
    cases s with
    | nil => simp [stripPrefixCL] at h
    | cons c cs =>
      simp only [stripPrefixCL] at h
      split at h
      · have := ih cs r h
        simp only [List.length_cons]
        omega
      · exact absurd h (by simp)

/-- Scans forward to the first occurrence of the closing marker of a code
block and drops through it; fails when the input holds no closing marker.
This is the non-greedy part of the code-block regexes in
src/services/geminiService.ts (lines 158 and 253). -/
def dropThroughClose : List Char → Option (List Char)
  | [] => none
  | c :: t =>
    match stripPrefixCL "```".data (c :: t) with
    | some r => some r
    | none => dropThroughClose t

/-- The remainder after a closing marker is shorter by at least the marker. -/
theorem dropThroughClose_length : ∀ (s r : List Char), dropThroughClose s = some r →
    r.length + 3 ≤ s.length := by
  intro s
  induction s with
  | nil => intro r h; simp [dropThroughClose] at h
  | cons c t ih =>
    intro r h
    simp only [dropThroughClose] at h
    cases hm : stripPrefixCL "```".data (c :: t) with
    | some x =>
      rw [hm] at h
      cases h
      have hl := stripPrefixCL_length _ _ _ hm
      simp only [List.length_cons] at hl ⊢
      have : ("```".data).length = 3 := by decide
      omega
    | none =>
      rw [hm] at h
      have := ih r h
      simp only [List.length_cons]
      omega

/-- Embeds the global non-greedy replace `text.replace(x, "")` where `x` is the
regex made of three backticks, then `extra`, then a shortest-match body, then
three closing backticks: each leftmost match is deleted and scanning resumes
after it (src/services/geminiService.ts lines 158 and 253, with `extra` the
characters of `json` for the try-on call and empty for the product call). -/
def replaceBlocksFuel (extra : List Char) : Nat → List Char → List Char
  | _, [] => []
  | 0, s => s
  | fuel + 1, c :: t =>
    match stripPrefixCL ("```".data ++ extra) (c :: t) with
    | some afterOpen =>
      match dropThroughClose afterOpen with
      | some rest => replaceBlocksFuel extra fuel rest
      | none => c :: replaceBlocksFuel extra fuel t
    | none => c :: replaceBlocksFuel extra fuel t

/-- Runs the scan with fuel equal to the input length.  Every step either ends
the scan or recurses on a strictly shorter list (`stripPrefixCL_length` and
`dropThroughClose_length` bound the deleted block by at least six characters),
so this fuel always suffices and the zero-fuel fallback is unreachable. -/
def replaceBlocks (extra s : List Char) : List Char :=
  replaceBlocksFuel extra s.length s

/-- Embeds JavaScript `String.prototype.trim`: whitespace removed from both
ends. -/
def trimCL (s : List Char) : List Char :=
  ((s.dropWhile Char.isWhitespace).reverse.dropWhile Char.isWhitespace).reverse

example : String.mk (replaceBlocks "json".data "a ```json x ``` b".data) = "a  b" := by decide
example : String.mk (replaceBlocks [] "``` x ``` b".data) = " b" := by decide
example : String.mk (trimCL "  hi  ".data) = "hi" := by decide

/-- Embeds the `Recommendation` interface of src/types.ts. -/
structure Recommendation where
  itemName : String
  category : String
  reason : String
  colorHex : String
deriving DecidableEq, Repr

/-- Structured boolean-plus-reason answer of the Safety Gate
(src/services/geminiService.ts line 15). -/
structure SafetyCheck where
  valid : Bool
  reason : Option String
deriving DecidableEq, Repr

/-- Backend response as seen by the text/structured calls: only its `text`
accessor is read; `none` models an absent field. -/
structure TextResponse where
  text : Option String
deriving DecidableEq, Repr

/-- Inline image payload of a backend response part: a declared MIME type and
the base64 data. -/
structure InlineData where
  mimeType : String
  data : String
deriving DecidableEq, Repr

/-- One part of an image-model response: optionally an inline image, optionally
text. -/
structure RespPart where
  inlineData : Option InlineData
  text : Option String
deriving DecidableEq, Repr

/-- Backend response as seen by the image calls:
`response.candidates?.[0]?.content?.parts || []` collapses every missing level
to the empty list, so the parts list is the whole observable response. -/
structure GenResponse where
  parts : List RespPart
deriving DecidableEq, Repr

/-- Embeds the `Pose` type of src/types.ts: the string sentinel or a number of
degrees. -/
inductive Pose where
  | original
  | angle (degrees : Nat)
deriving DecidableEq, Repr

/-- Embeds `validateClothingSafety` (src/services/geminiService.ts lines
13-68).  `backendResp` is the settled backend promise; `jsonParse` models
`JSON.parse` on the returned text (it may throw, and such a throw lands in the
same `catch` as a rejected backend call).  The data URL is parsed before the
`try` block, so its failure propagates as-is. -/
def validateClothingSafety (clothingImageBase64 : String)
    (backendResp : Except String TextResponse)
    (jsonParse : String → Except Unit SafetyCheck) : Except String SafetyCheck :=
  match parseBase64 clothingImageBase64 with
  | Except.error e => Except.error e
  | Except.ok _clothingImage =>
    match backendResp with
    | Except.error _ => Except.error "Security validation service is currently unavailable."
    | Except.ok response =>
      match jsTruthyOpt response.text with
      | some t =>
        match jsonParse t with
        | Except.ok result => Except.ok result
        | Except.error _ => Except.error "Security validation service is currently unavailable."
      | none => Except.ok { valid := false, reason := some "Unable to verify image safety." }

/-- Embeds `generateStylistReview` (src/services/geminiService.ts lines
70-99): both data URLs are parsed before the `try`; a failed backend call is
swallowed by the `catch`, which returns the fixed fallback compliment; a
completed call returns its text or, when that is falsy, the other fixed
default. -/
def generateStylistReview (userImageBase64 clothingImageBase64 : String)
    (backendResp : Except String TextResponse) : Except String String :=
  match parseBase64 userImageBase64 with
  | Except.error e => Except.error e
  | Except.ok _userImage =>
    match parseBase64 clothingImageBase64 with
    | Except.error e => Except.error e
    | Except.ok _clothingImage =>
      match backendResp with
      | Except.error _ => Except.ok "This look is bold and stylish!"
      | Except.ok response =>
        Except.ok (jsOr (response.text.getD "")
          "A sophisticated choice that complements your style perfectly.")

/-- Embeds `generateStyleRecommendations` (src/services/geminiService.ts lines
174-219): the data URL is parsed before the `try`; a rejected backend call or
a throwing `JSON.parse` is swallowed by the `catch`, which returns the empty
list; falsy text also returns the empty list. -/
def generateStyleRecommendations (clothingImageBase64 : String)
    (backendResp : Except String TextResponse)
    (jsonParse : String → Except Unit (List Recommendation)) :
    Except String (List Recommendation) :=
  match parseBase64 clothingImageBase64 with
  | Except.error e => Except.error e
  | Except.ok _clothingImage =>
    match backendResp with
    | Except.error _ => Except.ok []
    | Except.ok response =>
      match jsTruthyOpt response.text with
      | some t =>
        match jsonParse t with
        | Except.ok recs => Except.ok recs
        | Except.error _ => Except.ok []
      | none => Except.ok []

/-- The `for` loop of `generateTryOn` (src/services/geminiService.ts lines
147-151): every inline-image part overwrites `imageUrl`, so the last one wins,
and the URL is always labeled `image/png` whatever the part declares. -/
def lastInlineUrl (parts : List RespPart) : Option String :=
  parts.foldl (fun acc part =>
    match part.inlineData with
    | some d => some ("data:image/png;base64," ++ d.data)
    | none => acc) none

/-- Embeds `parts.find(p => p.text)?.text` followed by a truthiness test on
the result, shared by both image calls. -/
def findTruthyText (parts : List RespPart) : Option String :=
  jsTruthyOpt ((parts.find? (fun p => (jsTruthyOpt p.text).isSome)).bind (fun p => p.text))

/-- Body of the `try` block of `generateTryOn` (src/services/geminiService.ts
lines 143-166) applied to a completed backend response. -/
def generateTryOnTry (resp : GenResponse) : Except String String :=
  match lastInlineUrl resp.parts with
  | some imageUrl => Except.ok imageUrl
  | none =>
    match findTruthyText resp.parts with
    | some textPart =>
      let cleanFeedback := String.mk (trimCL (replaceBlocks "json".data textPart.data))
      if cleanFeedback.length > 0 then
        Except.error ("The model could not generate the image. Message: \""
          ++ cleanFeedback.take 100 ++ "...\"")
      else
        Except.error "The model did not return an image. Please try a different photo or clothing item."
    | none =>
      Except.error "The model did not return an image. Please try a different photo or clothing item."

/-- Embeds `generateTryOn` (src/services/geminiService.ts lines 101-172): the
two data URLs are parsed before the `try`; the `catch` rethrows the caught
message, or a fixed fallback when that message is empty. -/
def generateTryOn (userImageBase64 clothingImageBase64 instructions : String)
    (pose : Pose) (backendResp : Except String GenResponse) : Except String String :=
  match parseBase64 userImageBase64 with
  | Except.error e => Except.error e
  | Except.ok _userImage =>
    match parseBase64 clothingImageBase64 with
    | Except.error e => Except.error e
    | Except.ok _clothingImage =>
      match (match backendResp with
             | Except.error e => Except.error e
             | Except.ok resp => generateTryOnTry resp : Except String String) with
      | Except.ok r => Except.ok r
      | Except.error e => Except.error (jsOr e "Failed to process virtual try-on.")

/-- Body of the `try` block of `generateProductImage`
(src/services/geminiService.ts lines 236-257): here the loop returns the
first inline-image part, text failures build a descriptive message (code
blocks removed, trimmed, first 50 characters), and a response with neither
throws the fixed no-image message. -/
def generateProductImageTry (resp : GenResponse) : Except String String :=
  match resp.parts.findSome? (fun p =>
      p.inlineData.map (fun d => "data:image/png;base64," ++ d.data)) with
  | some url => Except.ok url
  | none =>
    match findTruthyText resp.parts with
    | some textPart =>
      let cleanText := String.mk (trimCL (replaceBlocks [] textPart.data))
      Except.error ("Model returned text: " ++ cleanText.take 50 ++ "...")
    | none => Except.error "No image generated"

/-- Embeds `generateProductImage` (src/services/geminiService.ts lines
221-262): the `catch` replaces every failure, including the descriptive ones
thrown inside the `try`, with the one fixed message. -/
def generateProductImage (recommendation : Recommendation)
    (backendResp : Except String GenResponse) : Except String String :=
  match (match backendResp with
         | Except.error e => Except.error e
         | Except.ok resp => generateProductImageTry resp : Except String String) with
  | Except.ok r => Except.ok r
  | Except.error _ => Except.error "Failed to visualize the recommended item."

/-- Embeds the `AppStatus` enum of src/types.ts. -/
inductive AppStatus where
  | IDLE
  | PROCESSING
  | SUCCESS
  | ERROR
deriving DecidableEq, Repr

/-- Embeds the `ImageFile` interface of src/types.ts; of the wrapped `File`
object only its name is ever used. -/
structure ImageFile where
  fileName : String
  previewUrl : String
  base64 : String
deriving DecidableEq, Repr

/-- Embeds the `GenerationResult` interface of src/types.ts. -/
structure GenerationResult where
  imageUrl : Option String
  feedback : Option String
  recommendations : Option (List Recommendation)
deriving DecidableEq, Repr

/-- The `useState` cells of the `App` component (src/App.tsx lines 10-18). -/
structure AppState where
  userImage : Option ImageFile
  clothingImage : Option ImageFile
  clothingModelUrl : Option String
  instructions : String
  rotation : Nat
  useCustomRotation : Bool
  status : AppStatus
  result : Option GenerationResult
  error : Option String
deriving DecidableEq, Repr

/-- One of the three generation operations the workflow can issue; the try-on
call records the pose it was given. -/
inductive GenCall where
  | tryOn (pose : Pose)
  | recommendations
  | stylistReview
deriving DecidableEq, Repr

/-- Outcomes of the backend exchanges one run of the workflow can perform,
plus the behaviour of `JSON.parse` on the texts the structured calls read.
Each field is consulted only if the workflow reaches the corresponding call. -/
structure Backend where
  safetyResp : Except String TextResponse
  safetyParse : String → Except Unit SafetyCheck
  tryOnResp : Except String GenResponse
  recsResp : Except String TextResponse
  recsParse : String → Except Unit (List Recommendation)
  reviewResp : Except String TextResponse

/-- Embeds `const pose: Pose = useCustomRotation ? rotation : 'original'`
(src/App.tsx line 27). -/
def poseOf (s : AppState) : Pose :=
  if s.useCustomRotation then Pose.angle s.rotation else Pose.original

/-- The `min` attribute of the rotation range input (src/App.tsx line 225). -/
def rotationInputMin : Nat := 0

/-- The `max` attribute of the rotation range input (src/App.tsx line 226); a
range input clamps its value to the closed interval of its bounds. -/
def rotationInputMax : Nat := 360

/-- The three generation calls issued by the `Promise.all` fan-out
(src/App.tsx lines 36-40), in source order. -/
def genCalls (pose : Pose) : List GenCall :=
  [GenCall.tryOn pose, GenCall.recommendations, GenCall.stylistReview]

/-- Joins the three settled promises of the fan-out.  `Promise.all` rejects
with the first rejection; taking the leftmost error is observationally
equivalent here because the only inputs on which the recommendation or review
promise can reject (malformed data URLs, parsed before their `try` blocks) also
make the try-on promise reject with the identical message. -/
def promiseAll3 {a b c : Type} (x : Except String a) (y : Except String b)
    (z : Except String c) : Except String (a × b × c) :=
  match x with
  | Except.error e => Except.error e
  | Except.ok xv =>
    match y with
    | Except.error e => Except.error e
    | Except.ok yv =>
      match z with
      | Except.error e => Except.error e
      | Except.ok zv => Except.ok (xv, yv, zv)

/-- Body of the `try` block of `handleTryOn` (src/App.tsx lines 29-47), given
the state already put into Processing.  Returns the state an `Except.ok` exit
leaves behind, or the thrown message, together with the generation calls that
were issued. -/
def runGeneration (backend : Backend) (s1 : AppState)
    (userImage clothingImage : ImageFile) (instructions : String) (pose : Pose) :
    Except String AppState × List GenCall :=
  match validateClothingSafety clothingImage.base64 backend.safetyResp backend.safetyParse with
  | Except.error e => (Except.error e, [])
  | Except.ok safetyCheck =>
    if safetyCheck.valid then
      match promiseAll3
          (generateTryOn userImage.base64 clothingImage.base64 instructions pose backend.tryOnResp)
          (generateStyleRecommendations clothingImage.base64 backend.recsResp backend.recsParse)
          (generateStylistReview userImage.base64 clothingImage.base64 backend.reviewResp) with
      | Except.error e => (Except.error e, genCalls pose)
      | Except.ok (tryOnResult, recommendations, stylistReview) =>
        (Except.ok { s1 with
            result := some { imageUrl := some tryOnResult,
                             feedback := some stylistReview,
                             recommendations := some recommendations },
            status := AppStatus.SUCCESS }, genCalls pose)
    else
      (Except.error ("Safety Alert: "
          ++ jsOr (safetyCheck.reason.getD "") "This image cannot be processed due to safety guidelines."), [])

/-- Embeds `handleTryOn` (src/App.tsx lines 20-53): the early return when an
asset is missing, the reset to Processing, the pose snapshot, the safety gate,
the three-way fan-out, and the `catch` that records the thrown message (or a
fixed fallback when that message is empty) and moves to Error.  The second
component lists the generation calls the run issued. -/
def handleTryOn (backend : Backend) (s : AppState) : AppState × List GenCall :=
  match s.userImage, s.clothingImage with
  | some userImage, some clothingImage =>
    let s1 : AppState := { s with status := AppStatus.PROCESSING, error := none, result := none }
    match runGeneration backend s1 userImage clothingImage s.instructions (poseOf s) with
    | (Except.ok s2, calls) => (s2, calls)
    | (Except.error e, calls) =>
      ({ s1 with error := some (jsOr e "Failed to process the virtual try-on."),
                 status := AppStatus.ERROR }, calls)
  | _, _ => (s, [])

/-- Embeds `handleApplyRecommendation` (src/App.tsx lines 61-81): on success
the synthesized image becomes the new garment asset, the instructions are
seeded from the recommendation, the old result is dropped and the workflow
returns to Idle; on failure a fixed generic message is recorded and the
workflow also returns to Idle. -/
def handleApplyRecommendation (backendResp : Except String GenResponse)
    (rec : Recommendation) (s : AppState) : AppState :=
  let s1 : AppState := { s with status := AppStatus.PROCESSING }
  match generateProductImage rec backendResp with
  | Except.ok base64Image =>
    { s1 with
        clothingImage := some { fileName := rec.itemName ++ ".png",
                                previewUrl := base64Image,
                                base64 := base64Image },
        clothingModelUrl := none,
        instructions := "Trying on " ++ rec.colorHex ++ " " ++ rec.itemName,
        result := none,
        status := AppStatus.IDLE }
  | Except.error _ =>
    { s1 with error := some "Could not visualize item. Please try again.",
              status := AppStatus.IDLE }

/-- Well-formed user-photo asset used by concrete runs. -/
def sampleUser : ImageFile :=
  { fileName := "me.png", previewUrl := "u", base64 := "data:a;base64,b" }

/-- Well-formed garment asset used by concrete runs. -/
def sampleClothing : ImageFile :=
  { fileName := "tee.png", previewUrl := "c", base64 := "data:c;base64,d" }

/-- Idle state with both assets present. -/
def sampleState : AppState :=
  { userImage := some sampleUser, clothingImage := some sampleClothing,
    clothingModelUrl := none, instructions := "", rotation := 0,
    useCustomRotation := false, status := AppStatus.IDLE, result := none, error := none }

/-- Models `JSON.parse` applied to text that is not JSON: it throws. -/
def parseNever {a : Type} : String → Except Unit a := fun _ => Except.error ()

/-- Models `JSON.parse` on the safety response text `ok`, yielding a passing
verdict. -/
def parseSafetyValid : String → Except Unit SafetyCheck :=
  fun _ => Except.ok { valid := true, reason := none }

/-- Backend response carrying one inline image declared as JPEG. -/
def imageResp : GenResponse :=
  { parts := [ { inlineData := some { mimeType := "image/jpeg", data := "IMG" },
                 text := none } ] }

/-- Backend where the safety call itself is rejected and nothing else would
answer. -/
def backendSafetyDown : Backend :=
  { safetyResp := Except.error "network down", safetyParse := parseNever,
    tryOnResp := Except.error "", recsResp := Except.error "",
    recsParse := parseNever, reviewResp := Except.error "" }

/-- Backend where the safety gate passes, the try-on call returns an image and
the two decorative calls are rejected. -/
def backendHappy : Backend :=
  { safetyResp := Except.ok { text := some "ok" }, safetyParse := parseSafetyValid,
    tryOnResp := Except.ok imageResp, recsResp := Except.error "quota",
    recsParse := parseNever, reviewResp := Except.error "quota" }

/-- Backend where the safety gate passes and the try-on call is rejected. -/
def backendTryOnDown : Backend :=
  { safetyResp := Except.ok { text := some "ok" }, safetyParse := parseSafetyValid,
    tryOnResp := Except.error "boom", recsResp := Except.ok { text := none },
    recsParse := parseNever, reviewResp := Except.ok { text := none } }

/-- The default `s || d` never yields the empty string when `d` is nonempty. -/
theorem jsOr_ne_empty (s d : String) (hd : d ≠ "") : jsOr s d ≠ "" := by
  unfold jsOr
  split
  · exact hd
  · assumption

/-- The Asset Encoder fails with the one fixed message. -/
theorem parseBase64_error_eq : ∀ (s : String) (e : String),
    parseBase64 s = Except.error e → e = "Invalid base64 string provided." := by
  intro s e h
  unfold parseBase64 at h
  split at h
  · exact (Except.error.inj h).symm
  · split at h
    · exact absurd h (by simp)
    · exact (Except.error.inj h).symm

/-- The composite call never rejects with an empty message. -/
theorem generateTryOn_error_ne_empty : ∀ (u c i : String) (p : Pose)
    (b : Except String GenResponse) (m : String),
    generateTryOn u c i p b = Except.error m → m ≠ "" := by
  intro u c i p b m h
  unfold generateTryOn at h
  split at h
  case h_1 e heq =>
    rw [(Except.error.inj h).symm, parseBase64_error_eq u e heq]
    decide
  case h_2 =>
    split at h
    case h_1 e heq =>
      rw [(Except.error.inj h).symm, parseBase64_error_eq c e heq]
      decide
    case h_2 =>
      split at h
      · exact absurd h (by simp)
      · rw [(Except.error.inj h).symm]
        exact jsOr_ne_empty _ _ (by decide)

/-- A successful composite call presupposes that both data URLs parsed. -/
theorem generateTryOn_ok_parses : ∀ (u c i : String) (p : Pose)
    (b : Except String GenResponse) (r : String),
    generateTryOn u c i p b = Except.ok r →
    (∃ du, parseBase64 u = Except.ok du) ∧ (∃ dc, parseBase64 c = Except.ok dc) := by
  intro u c i p b r h
  unfold generateTryOn at h
  split at h
  · exact absurd h (by simp)
  case h_2 du hdu =>
    split at h
    · exact absurd h (by simp)
    case h_2 dc hdc => exact ⟨⟨du, hdu⟩, ⟨dc, hdc⟩⟩

/-- Last element of a nonempty list, expressed through its tail. -/
theorem getLast?_cons_getD {α : Type} (a : α) (l : List α) :
    (a :: l).getLast? = some ((l.getLast?).getD a) := by
  induction l generalizing a with
  | nil => rfl
  | cons b t ih =>
    rw [List.getLast?_cons_cons, ih b]
    rfl

/-- The overwrite loop of `generateTryOn` computes the URL of the last
inline-image part, whatever the accumulator started as. -/
theorem lastInlineUrl_foldl : ∀ (parts : List RespPart) (acc : Option String),
    parts.foldl (fun a part => match part.inlineData with
      | some d => some ("data:image/png;base64," ++ d.data)
      | none => a) acc
    = match (parts.filterMap (fun p => p.inlineData)).getLast? with
      | some d => some ("data:image/png;base64," ++ d.data)
      | none => acc := by
  intro parts
  induction parts with
  | nil => intro acc; rfl
  | cons p ps ih =>
    intro acc
    rw [List.foldl_cons]
    cases hp : p.inlineData with
    | none =>
      rw [List.filterMap_cons]
      rw [hp]
      simp only [hp]
      exact ih acc
    | some d =>
      rw [List.filterMap_cons, hp]
      simp only [hp]
      rw [ih (some ("data:image/png;base64," ++ d.data))]
      rw [getLast?_cons_getD d (ps.filterMap (fun p => p.inlineData))]
      cases hL : (ps.filterMap (fun p => p.inlineData)).getLast? with
      | none => rfl
      | some d' => rfl

/-- The loop of `generateTryOn` keeps the last inline-image part. -/
theorem lastInlineUrl_spec (parts : List RespPart) :
    lastInlineUrl parts =
      ((parts.filterMap (fun p => p.inlineData)).getLast?).map
        (fun d => "data:image/png;base64," ++ d.data) := by
  unfold lastInlineUrl
  rw [lastInlineUrl_foldl]
  cases (parts.filterMap (fun p => p.inlineData)).getLast? with
  | none => rfl
  | some d => rfl

/-- Without any inline-image part the early-return search of
`generateProductImage` finds nothing. -/
theorem findSome?_inline_none (parts : List RespPart)
    (h : ∀ p ∈ parts, p.inlineData = none) :
    parts.findSome? (fun p =>
      p.inlineData.map (fun d => "data:image/png;base64," ++ d.data)) = none := by
  induction parts with
  | nil => rfl
  | cons p ps ih =>
    rw [List.findSome?_cons]
    rw [h p (by simp)]
    exact ih (fun q hq => h q (by simp [hq]))

/-- A successful greedy search certifies a split of the input into a nonempty
dot-character group and a matching `;base64,<payload>` tail. -/
theorem greedySplit_some_split : ∀ (rest m0 m p : List Char),
    greedySplit m0 rest = some (m, p) →
    ∃ k, k ≤ rest.length ∧ m = m0 ++ rest.take k ∧
      (rest.take k).all jsDotChar = true ∧
      matchTail (rest.drop k) = some p ∧ (m0 ++ rest.take k) ≠ [] := by
  intro rest
  induction rest with
  | nil =>
    intro m0 m p h
    simp [greedySplit] at h
  | cons c cs ih =>
    intro m0 m p h
    simp only [greedySplit] at h
    by_cases hdot : jsDotChar c = true
    · rw [if_pos hdot] at h
      cases hg : greedySplit (m0 ++ [c]) cs with
      | some r =>
        simp only [hg] at h
        obtain ⟨k, hk, hm, hall, ht, hne⟩ := ih (m0 ++ [c]) m p (by rw [hg, h])
        refine ⟨k + 1, ?_, ?_, ?_, ?_, ?_⟩
        · simp only [List.length_cons]; omega
        · rw [hm, List.take_succ_cons]
          simp [List.append_assoc]
        · simp [List.take_succ_cons, hdot, hall]
        · rw [List.drop_succ_cons]; exact ht
        · rw [List.take_succ_cons]; simp
      | none =>
        simp only [hg] at h
        split at h
        · rename_i hne0
          rw [Option.map_eq_some'] at h
          obtain ⟨q, hq, hfq⟩ := h
          cases hfq
          have hm0 : m0 ≠ [] := by
            cases m0
            · simp at hne0
            · simp
          refine ⟨0, by omega, by simp, by simp, by simpa using hq, by simpa using hm0⟩
        · exact absurd h (by simp)
    · rw [if_neg hdot] at h
      split at h
      · rename_i hne0
        rw [Option.map_eq_some'] at h
        obtain ⟨q, hq, hfq⟩ := h
        cases hfq
        have hm0 : m0 ≠ [] := by
          cases m0
          · simp at hne0
          · simp
        refine ⟨0, by omega, by simp, by simp, by simpa using hq, by simpa using hm0⟩
      · exact absurd h (by simp)

/-- C5: for every input string that does not match the exact
`data:<mime>;base64,<payload>` shape (missing scheme, missing separator, or no
match at all), the Asset Encoder fails with the fixed FormatError message and
produces no partial result: the outcome is the bare error, carrying no pair. -/
theorem parseBase64_rejects_malformed : ∀ (s : String), hasDataUrlShape s = false →
    parseBase64 s = Except.error "Invalid base64 string provided." := by
  intro s hshape
  unfold parseBase64
  cases h1 : stripPrefixCL "data:".data s.data with
  | none => rfl
  | some rest =>
    cases h2 : greedySplit [] rest with
    | none => simp [h2]
    | some mp =>
      exfalso
      obtain ⟨m, p⟩ := mp
      obtain ⟨k, hk, hm, hall, ht, hne⟩ := greedySplit_some_split rest [] m p h2
      have hmt_nil : matchTail ([] : List Char) = none := by decide
      have hklt : k < rest.length := by
        rcases Nat.lt_or_ge k rest.length with hlt | hge
        · exact hlt
        · exfalso
          have hlen : (rest.drop k).length = 0 := by
            rw [List.length_drop]; omega
          have hdnil : rest.drop k = [] := List.eq_nil_of_length_eq_zero hlen
          rw [hdnil, hmt_nil] at ht
          exact Option.noConfusion ht
      have htk : rest.take k ≠ [] := by simpa using hne
      have hpred : (!(rest.take k).isEmpty && (rest.take k).all jsDotChar &&
          (matchTail (rest.drop k)).isSome) = true := by
        simp [hall, ht, htk]
      have hany : (List.range rest.length).any (fun i =>
          !(rest.take i).isEmpty && (rest.take i).all jsDotChar &&
            (matchTail (rest.drop i)).isSome) = true :=
        List.any_eq_true.mpr ⟨k, List.mem_range.mpr hklt, hpred⟩
      simp only [hasDataUrlShape, h1] at hshape
      rw [hany] at hshape
      simp at hshape

/-- Witness for C5 at the concrete malformed input `hello`. -/
theorem parseBase64_rejects_malformed_witness :
    hasDataUrlShape "hello" = false ∧
    parseBase64 "hello" = Except.error "Invalid base64 string provided." :=
  ⟨by decide, parseBase64_rejects_malformed "hello" (by decide)⟩

/-- Counterexample to C2 as stated: a backend call that completes with text
that is present but not parseable JSON does not produce the default-deny
verdict.  The `JSON.parse` throw lands in the same `catch` as a transport
failure, so the gate raises the ServiceUnavailable error and returns no
verdict at all at this input. -/
theorem validateClothingSafety_unparseable_cex :
    validateClothingSafety "data:a;base64,b" (Except.ok { text := some "oops" }) parseNever
      = Except.error "Security validation service is currently unavailable." ∧
    (validateClothingSafety "data:a;base64,b"
      (Except.ok { text := some "oops" }) parseNever).toOption = none := by
  constructor
  · decide
  · decide

/-- C2 (amended): the Safety Gate's asymmetry as the code implements it.  Given
a well-formed garment payload: a rejected backend call raises the fixed
ServiceUnavailable error; a completed call whose text is absent or empty
returns the default-deny verdict `valid := false` with the fixed reason; and a
completed call with truthy text on which `JSON.parse` throws also raises the
ServiceUnavailable error rather than defaulting. -/
theorem validateClothingSafety_asymmetry :
    ∀ (img : String) (d : MimeData) (b : Except String TextResponse)
      (jsonParse : String → Except Unit SafetyCheck),
    parseBase64 img = Except.ok d →
    ((∀ e, b = Except.error e →
        validateClothingSafety img b jsonParse
          = Except.error "Security validation service is currently unavailable.") ∧
     (∀ r, b = Except.ok r → jsTruthyOpt r.text = none →
        validateClothingSafety img b jsonParse
          = Except.ok { valid := false, reason := some "Unable to verify image safety." }) ∧
     (∀ r t, b = Except.ok r → jsTruthyOpt r.text = some t → jsonParse t = Except.error () →
        validateClothingSafety img b jsonParse
          = Except.error "Security validation service is currently unavailable.")) := by
  intro img d b jsonParse hparse
  refine ⟨?_, ?_, ?_⟩
  · intro e hb
    subst hb
    simp only [validateClothingSafety, hparse]
  · intro r hb htext
    subst hb
    simp only [validateClothingSafety, hparse, htext]
  · intro r t hb htext hjson
    subst hb
    simp only [validateClothingSafety, hparse, htext, hjson]

/-- Witness for the amended C2: a rejected safety call on a well-formed
payload yields the ServiceUnavailable error. -/
theorem validateClothingSafety_asymmetry_witness :
    validateClothingSafety "data:a;base64,b" (Except.error "down") parseNever
      = Except.error "Security validation service is currently unavailable." :=
  (validateClothingSafety_asymmetry "data:a;base64,b" { mimeType := "a", data := "b" }
    (Except.error "down") parseNever (by decide)).1 "down" rfl

/-- C1: with both assets present, whenever the Safety Gate reports the garment
invalid or the safety call itself throws, the run issues none of the three
generation calls and the workflow ends in the Error state. -/
theorem safety_gate_blocks_generation :
    ∀ (b : Backend) (s : AppState) (u c : ImageFile),
    s.userImage = some u → s.clothingImage = some c →
    ((∃ chk, validateClothingSafety c.base64 b.safetyResp b.safetyParse = Except.ok chk ∧
        chk.valid = false) ∨
     (∃ e, validateClothingSafety c.base64 b.safetyResp b.safetyParse = Except.error e)) →
    (handleTryOn b s).2 = [] ∧ (handleTryOn b s).1.status = AppStatus.ERROR := by
  intro b s u c hu hc hsafety
  rcases hsafety with ⟨chk, hv, hfalse⟩ | ⟨e, hv⟩
  · constructor <;>
      simp only [handleTryOn, hu, hc, runGeneration, hv, hfalse, Bool.false_eq_true,
        if_false]
  · constructor <;>
      simp only [handleTryOn, hu, hc, runGeneration, hv]

/-- Witness for C1: the safety call rejects, no generation call is issued and
the state is Error. -/
theorem safety_gate_blocks_generation_witness :
    (handleTryOn backendSafetyDown sampleState).2 = [] ∧
    (handleTryOn backendSafetyDown sampleState).1.status = AppStatus.ERROR :=
  safety_gate_blocks_generation backendSafetyDown sampleState sampleUser sampleClothing
    rfl rfl
    (Or.inr ⟨"Security validation service is currently unavailable.", by decide⟩)

/-- C3: when the safety gate passes but the composite try-on call fails, the
workflow ends in Error carrying exactly that error's message, and the stored
GenerationResult is null, discarding whatever the other two calls produced. -/
theorem compositeTryOn_failure_aborts :
    ∀ (b : Backend) (s : AppState) (u c : ImageFile) (chk : SafetyCheck) (m : String),
    s.userImage = some u → s.clothingImage = some c →
    validateClothingSafety c.base64 b.safetyResp b.safetyParse = Except.ok chk →
    chk.valid = true →
    generateTryOn u.base64 c.base64 s.instructions (poseOf s) b.tryOnResp = Except.error m →
    (handleTryOn b s).1.status = AppStatus.ERROR ∧
    (handleTryOn b s).1.error = some m ∧
    (handleTryOn b s).1.result = none := by
  intro b s u c chk m hu hc hsafe hvalid htry
  have hm := generateTryOn_error_ne_empty _ _ _ _ _ _ htry
  refine ⟨?_, ?_, ?_⟩ <;>
    simp [handleTryOn, hu, hc, runGeneration, hsafe, hvalid, promiseAll3, htry, jsOr, hm]

/-- Witness for C3: safety passes, the try-on call rejects with `boom`, and the
final state is Error with that message and no result. -/
theorem compositeTryOn_failure_aborts_witness :
    (handleTryOn backendTryOnDown sampleState).1.status = AppStatus.ERROR ∧
    (handleTryOn backendTryOnDown sampleState).1.error = some "boom" ∧
    (handleTryOn backendTryOnDown sampleState).1.result = none :=
  compositeTryOn_failure_aborts backendTryOnDown sampleState sampleUser sampleClothing
    { valid := true, reason := none } "boom" rfl rfl (by decide) rfl (by decide)

/-- C4: when the safety gate passes, the composite call succeeds and both
decorative backend calls fail, the recommendation call returns the empty list,
the review call returns the fixed fallback string (neither raises), and the
workflow still reaches Success with the composited image, the fallback
feedback and the empty recommendation list. -/
theorem soft_degrade_reaches_success :
    ∀ (b : Backend) (s : AppState) (u c : ImageFile) (chk : SafetyCheck)
      (url e1 e2 : String),
    s.userImage = some u → s.clothingImage = some c →
    validateClothingSafety c.base64 b.safetyResp b.safetyParse = Except.ok chk →
    chk.valid = true →
    b.recsResp = Except.error e1 → b.reviewResp = Except.error e2 →
    generateTryOn u.base64 c.base64 s.instructions (poseOf s) b.tryOnResp = Except.ok url →
    generateStyleRecommendations c.base64 b.recsResp b.recsParse = Except.ok [] ∧
    generateStylistReview u.base64 c.base64 b.reviewResp
      = Except.ok "This look is bold and stylish!" ∧
    (handleTryOn b s).1.status = AppStatus.SUCCESS ∧
    (handleTryOn b s).1.result = some { imageUrl := some url,
                                        feedback := some "This look is bold and stylish!",
                                        recommendations := some [] } := by
  intro b s u c chk url e1 e2 hu hc hsafe hvalid hrecs hreview htry
  obtain ⟨⟨du, hdu⟩, ⟨dc, hdc⟩⟩ := generateTryOn_ok_parses _ _ _ _ _ _ htry
  have hrecsOk : generateStyleRecommendations c.base64 b.recsResp b.recsParse
      = Except.ok [] := by
    simp only [generateStyleRecommendations, hdc, hrecs]
  have hrevOk : generateStylistReview u.base64 c.base64 b.reviewResp
      = Except.ok "This look is bold and stylish!" := by
    simp only [generateStylistReview, hdu, hdc, hreview]
  refine ⟨hrecsOk, hrevOk, ?_, ?_⟩ <;>
    simp [handleTryOn, hu, hc, runGeneration, hsafe, hvalid, promiseAll3, htry,
      hrecsOk, hrevOk]

/-- Witness for C4: with the happy-path backend whose decorative calls are
rejected, the run ends in Success with the PNG-labeled image, the fallback
compliment and no recommendations. -/
theorem soft_degrade_reaches_success_witness :
    (handleTryOn backendHappy sampleState).1.status = AppStatus.SUCCESS ∧
    (handleTryOn backendHappy sampleState).1.result = some
      { imageUrl := some "data:image/png;base64,IMG",
        feedback := some "This look is bold and stylish!",
        recommendations := some [] } :=
  (soft_degrade_reaches_success backendHappy sampleState sampleUser sampleClothing
    { valid := true, reason := none } "data:image/png;base64,IMG" "quota" "quota"
    rfl rfl (by decide) rfl rfl rfl (by decide)).2.2

/-- C6: applying a recommendation whose product-image synthesis succeeds
replaces the garment asset with the synthesized image (as preview and
payload), seeds the instructions with a description containing the
recommendation's color and item name, discards the prior result and returns
the workflow to Idle. -/
theorem apply_recommendation_success :
    ∀ (pb : Except String GenResponse) (rec : Recommendation) (s : AppState) (url : String),
    generateProductImage rec pb = Except.ok url →
    (handleApplyRecommendation pb rec s).clothingImage
      = some { fileName := rec.itemName ++ ".png", previewUrl := url, base64 := url } ∧
    (handleApplyRecommendation pb rec s).instructions
      = "Trying on " ++ rec.colorHex ++ " " ++ rec.itemName ∧
    (∃ x y, ((handleApplyRecommendation pb rec s).instructions).data
      = x ++ (rec.colorHex.data ++ y)) ∧
    (∃ x y, ((handleApplyRecommendation pb rec s).instructions).data
      = x ++ (rec.itemName.data ++ y)) ∧
    (handleApplyRecommendation pb rec s).result = none ∧
    (handleApplyRecommendation pb rec s).status = AppStatus.IDLE := by
  intro pb rec s url h
  refine ⟨?_, ?_, ?_, ?_, ?_, ?_⟩
  · simp only [handleApplyRecommendation, h]
  · simp only [handleApplyRecommendation, h]
  · refine ⟨"Trying on ".data, " ".data ++ rec.itemName.data, ?_⟩
    simp only [handleApplyRecommendation, h]
    simp [String.data_append, List.append_assoc]
  · refine ⟨"Trying on ".data ++ rec.colorHex.data ++ " ".data, [], ?_⟩
    simp only [handleApplyRecommendation, h]
    simp [String.data_append, List.append_assoc]
  · simp only [handleApplyRecommendation, h]
  · simp only [handleApplyRecommendation, h]

/-- Witness for C6 at a concrete recommendation and a backend returning one
inline image. -/
theorem apply_recommendation_success_witness :
    (handleApplyRecommendation (Except.ok imageResp)
        { itemName := "scarf", category := "accessory", reason := "warm", colorHex := "#ff0000" }
        sampleState).instructions
      = "Trying on " ++ "#ff0000" ++ " " ++ "scarf" ∧
    (handleApplyRecommendation (Except.ok imageResp)
        { itemName := "scarf", category := "accessory", reason := "warm", colorHex := "#ff0000" }
        sampleState).status = AppStatus.IDLE :=
  ⟨(apply_recommendation_success (Except.ok imageResp)
      { itemName := "scarf", category := "accessory", reason := "warm", colorHex := "#ff0000" }
      sampleState "data:image/png;base64,IMG" (by decide)).2.1,
   (apply_recommendation_success (Except.ok imageResp)
      { itemName := "scarf", category := "accessory", reason := "warm", colorHex := "#ff0000" }
      sampleState "data:image/png;base64,IMG" (by decide)).2.2.2.2.2⟩

/-- C7: applying a recommendation whose product-image synthesis fails returns
the workflow to Idle (never Error) with the fixed generic message, leaving the
garment asset, the person asset and the instructions untouched. -/
theorem apply_recommendation_failure :
    ∀ (pb : Except String GenResponse) (rec : Recommendation) (s : AppState) (e : String),
    generateProductImage rec pb = Except.error e →
    (handleApplyRecommendation pb rec s).status = AppStatus.IDLE ∧
    (handleApplyRecommendation pb rec s).error
      = some "Could not visualize item. Please try again." ∧
    (handleApplyRecommendation pb rec s).clothingImage = s.clothingImage ∧
    (handleApplyRecommendation pb rec s).userImage = s.userImage ∧
    (handleApplyRecommendation pb rec s).instructions = s.instructions := by
  intro pb rec s e h
  refine ⟨?_, ?_, ?_, ?_, ?_⟩ <;> simp only [handleApplyRecommendation, h]

/-- Witness for C7 at a rejected synthesis call. -/
theorem apply_recommendation_failure_witness :
    (handleApplyRecommendation (Except.error "down")
        { itemName := "scarf", category := "accessory", reason := "warm", colorHex := "#ff0000" }
        sampleState).status = AppStatus.IDLE ∧
    (handleApplyRecommendation (Except.error "down")
        { itemName := "scarf", category := "accessory", reason := "warm", colorHex := "#ff0000" }
        sampleState).error = some "Could not visualize item. Please try again." :=
  ⟨(apply_recommendation_failure (Except.error "down")
      { itemName := "scarf", category := "accessory", reason := "warm", colorHex := "#ff0000" }
      sampleState "Failed to visualize the recommended item." (by decide)).1,
   (apply_recommendation_failure (Except.error "down")
      { itemName := "scarf", category := "accessory", reason := "warm", colorHex := "#ff0000" }
      sampleState "Failed to visualize the recommended item." (by decide)).2.1⟩

/-- Response whose only part is text, with no inline image. -/
def textOnlyResp : GenResponse :=
  { parts := [ { inlineData := none, text := some "refused" } ] }

/-- Concrete recommendation used by product-image runs. -/
def sampleRec : Recommendation :=
  { itemName := "hat", category := "accessory", reason := "sun", colorHex := "#00ff00" }

set_option maxRecDepth 4000 in
/-- Counterexample to C8 as stated: on a backend response carrying a text part
and no inline-image part, the error `generateProductImage` raises is the fixed
generic message, not a message carrying the returned text: the descriptive
message built inside the `try` is swallowed by the outer `catch`. -/
theorem generateProductImage_descriptive_cex :
    generateProductImageTry textOnlyResp
      = Except.error "Model returned text: refused..." ∧
    generateProductImage sampleRec (Except.ok textOnlyResp)
      = Except.error "Failed to visualize the recommended item." ∧
    "Failed to visualize the recommended item." ≠ "Model returned text: refused..." := by
  refine ⟨by decide, by decide, by decide⟩

/-- C8 (amended): the inner parsing of `generateProductImage` does distinguish
a text-bearing, image-free response and builds the descriptive message (code
blocks stripped, trimmed, truncated to 50 characters), but the outer `catch`
replaces every failure with the one fixed message, so the error the function
raises never carries the returned text. -/
theorem generateProductImage_generic_error :
    ∀ (rec : Recommendation) (resp : GenResponse) (t : String),
    (∀ p ∈ resp.parts, p.inlineData = none) →
    findTruthyText resp.parts = some t →
    generateProductImageTry resp
      = Except.error ("Model returned text: "
          ++ (String.mk (trimCL (replaceBlocks [] t.data))).take 50 ++ "...") ∧
    generateProductImage rec (Except.ok resp)
      = Except.error "Failed to visualize the recommended item." := by
  intro rec resp t hnone htext
  have hfind := findSome?_inline_none resp.parts hnone
  have htry : generateProductImageTry resp
      = Except.error ("Model returned text: "
          ++ (String.mk (trimCL (replaceBlocks [] t.data))).take 50 ++ "...") := by
    simp only [generateProductImageTry, hfind, htext]
  exact ⟨htry, by simp only [generateProductImage, htry]⟩

/-- Witness for the amended C8 at the concrete text-only response. -/
theorem generateProductImage_generic_error_witness :
    generateProductImage sampleRec (Except.ok textOnlyResp)
      = Except.error "Failed to visualize the recommended item." :=
  (generateProductImage_generic_error sampleRec textOnlyResp "refused"
    (by decide) (by decide)).2

/-- The body of a generation run issues either no generation call or exactly
the three fan-out calls carrying the pose it was given. -/
theorem runGeneration_calls (b : Backend) (s1 : AppState) (u c : ImageFile)
    (instr : String) (pose : Pose) :
    (runGeneration b s1 u c instr pose).2 = [] ∨
    (runGeneration b s1 u c instr pose).2 = genCalls pose := by
  cases hval : validateClothingSafety c.base64 b.safetyResp b.safetyParse with
  | error e => simp [runGeneration, hval]
  | ok chk =>
    rcases chk with ⟨valid, reason⟩
    cases valid
    · simp [runGeneration, hval]
    · cases hp : promiseAll3
          (generateTryOn u.base64 c.base64 instr pose b.tryOnResp)
          (generateStyleRecommendations c.base64 b.recsResp b.recsParse)
          (generateStylistReview u.base64 c.base64 b.reviewResp) with
      | error e => simp [runGeneration, hval, hp]
      | ok triple =>
        rcases triple with ⟨x, y, z⟩
        simp [runGeneration, hval, hp]

/-- Restatement of `runGeneration_calls` against an arbitrary pair result, so
it unifies with the equation a `split` produces. -/
theorem runGeneration_calls_of_eq : ∀ (b : Backend) (s1 : AppState) (u c : ImageFile)
    (instr : String) (pose : Pose) (exc : Except String AppState) (calls : List GenCall),
    runGeneration b s1 u c instr pose = (exc, calls) →
    calls = [] ∨ calls = genCalls pose := by
  intro b s1 u c instr pose exc calls h
  have := runGeneration_calls b s1 u c instr pose
  rw [h] at this
  exact this

/-- A try-on run issues either no generation call or exactly the three fan-out
calls carrying the pose computed from the entry state. -/
theorem handleTryOn_calls (b : Backend) (s : AppState) :
    (handleTryOn b s).2 = [] ∨ (handleTryOn b s).2 = genCalls (poseOf s) := by
  unfold handleTryOn
  split
  · dsimp only
    split
    · rename_i s2 calls heq
      rcases runGeneration_calls_of_eq _ _ _ _ _ _ _ _ heq with h | h <;> simp [h]
    · rename_i e calls heq
      rcases runGeneration_calls_of_eq _ _ _ _ _ _ _ _ heq with h | h <;> simp [h]
  · exact Or.inl rfl

/-- A state with the rotation slider pushed to its maximum and the advanced
setting enabled. -/
def fullTurnState : AppState :=
  { sampleState with useCustomRotation := true, rotation := 360 }

set_option maxRecDepth 4000 in
/-- Counterexample to C9 as stated: the slider's range is inclusive of 360, so
a run can pass the pose `angle 360` to the try-on call, and 360 is not inside
the half-open interval `[0,360)` the claim asserts. -/
theorem pose_full_turn_cex :
    rotationInputMin ≤ 360 ∧ 360 ≤ rotationInputMax ∧
    GenCall.tryOn (Pose.angle 360) ∈ (handleTryOn backendHappy fullTurnState).2 ∧
    ¬(360 < 360) := by
  refine ⟨by decide, by decide, by decide, by decide⟩

/-- C9 (amended): every pose a run passes to the try-on request equals the one
value computed from the state at entry (so it is fixed for that request), and
is either the keep-original sentinel or a numeric angle inside the slider's
closed range, 0 to 360 inclusive. -/
theorem pose_within_slider_range :
    ∀ (b : Backend) (s : AppState) (pose : Pose),
    s.rotation ≤ rotationInputMax →
    GenCall.tryOn pose ∈ (handleTryOn b s).2 →
    pose = poseOf s ∧
    (pose = Pose.original ∨
     ∃ n, pose = Pose.angle n ∧ rotationInputMin ≤ n ∧ n ≤ rotationInputMax) := by
  intro b s pose hrot hmem
  rcases handleTryOn_calls b s with hcalls | hcalls
  · rw [hcalls] at hmem
    simp at hmem
  · rw [hcalls] at hmem
    simp [genCalls] at hmem
    refine ⟨hmem, ?_⟩
    rw [hmem]
    unfold poseOf
    by_cases hcu : s.useCustomRotation = true
    · simp only [hcu, if_true]
      exact Or.inr ⟨s.rotation, rfl, by simp [rotationInputMin], hrot⟩
    · simp only [hcu, if_false]
      exact Or.inl rfl

/-- Witness for the amended C9: a mid-range rotation yields the corresponding
angle pose, inside the closed slider range. -/
theorem pose_within_slider_range_witness :
    Pose.angle 180 = poseOf { sampleState with useCustomRotation := true, rotation := 180 } ∧
    (Pose.angle 180 = Pose.original ∨
     ∃ n, Pose.angle 180 = Pose.angle n ∧ rotationInputMin ≤ n ∧ n ≤ rotationInputMax) :=
  pose_within_slider_range backendHappy
    { sampleState with useCustomRotation := true, rotation := 180 }
    (Pose.angle 180) (by decide) (by decide)

/-- C10: for every backend response holding at least one inline-image part,
the composite call returns a URL built from the data of the last inline-image
part, always labeled `image/png` regardless of the part's declared MIME type
and of how many image parts the response holds. -/
theorem generateTryOn_last_inline_image :
    ∀ (u c instr : String) (pose : Pose) (resp : GenResponse)
      (du dc : MimeData) (d : InlineData),
    parseBase64 u = Except.ok du → parseBase64 c = Except.ok dc →
    (resp.parts.filterMap (fun p => p.inlineData)).getLast? = some d →
    generateTryOn u c instr pose (Except.ok resp)
      = Except.ok ("data:image/png;base64," ++ d.data) := by
  intro u c instr pose resp du dc d hdu hdc hlast
  have hurl : lastInlineUrl resp.parts = some ("data:image/png;base64," ++ d.data) := by
    rw [lastInlineUrl_spec, hlast]
    rfl
  simp only [generateTryOn, hdu, hdc, generateTryOnTry, hurl]

/-- Response with two inline images of non-PNG declared types; the second is
last. -/
def twoImageResp : GenResponse :=
  { parts := [ { inlineData := some { mimeType := "image/jpeg", data := "AAA" }, text := none },
               { inlineData := some { mimeType := "image/webp", data := "BBB" }, text := some "note" } ] }

/-- Witness for C10: of two non-PNG inline parts, the second one's data is
returned, labeled PNG. -/
theorem generateTryOn_last_inline_image_witness :
    generateTryOn "data:a;base64,b" "data:c;base64,d" "" Pose.original (Except.ok twoImageResp)
      = Except.ok ("data:image/png;base64," ++ "BBB") :=
  generateTryOn_last_inline_image "data:a;base64,b" "data:c;base64,d" "" Pose.original
    twoImageResp { mimeType := "a", data := "b" } { mimeType := "c", data := "d" }
    { mimeType := "image/webp", data := "BBB" } (by decide) (by decide) (by decide)
